import Mathlib

/-!
Shallow embedding of the frame-orchestration core of the Vulkan demo app
(`src/vulkan/src/vulkanClasses/vulkanApp.cpp`): the deferred resource
reclaimer ("dumpster/recycler"), the pending-transfer queue, the frame
submission path (`drawCurrentCommandBuffer`, `executePendingTransfers`),
primary command buffer building (`buildCommandBuffers`, `prepareFrame`,
`updateDrawCommandBuffers`), and the render loop (`renderLoop`, `run`).

GPU handles (semaphores, fences, command buffers) are modelled as natural
numbers; freshly created handles are drawn from a monotone counter
`nextHandle`.  Device/queue effects are modelled as an explicit event
trace.  Whether a fence reads signaled is an input to the model (the list
`signaledFences`), since the GPU drives it.
-/

namespace vkx

/-- A queued buffer update, mirroring the `pendingUpdates` element type
used by `executePendingTransfers` (fields of `update`: `buffer`,
`offset`, `size`, `data`). -/
structure PendingUpdate where
  buffer : Nat
  offset : Nat
  size : Nat
  data : Nat
deriving Repr, DecidableEq

/-- A deferred cleanup action: the body of a closure pushed into the
dumpster or the recycler in `vulkanApp.cpp` (destroy a semaphore, free a
command buffer, or clear a swapchain submit-fence slot). -/
inductive CleanupAction where
  | destroySemaphore (h : Nat)
  | freeCommandBuffer (h : Nat)
  | clearSubmitFence (idx : Nat)
deriving Repr, DecidableEq

/-- Modelled from the spec (the `vulkanContext` class holding the
dumpster and recycler is not among the sources; only its callers are):
the dumpster is the list of cleanup closures queued for destruction at
the next fence checkpoint, and the recycler is the queue of
(guard-fence, cleanup closures) pairs awaiting their fence. -/
structure Context where
  dumpster : List CleanupAction
  recycler : List (Nat × List CleanupAction)
deriving Repr, DecidableEq

/-- Modelled from the spec: `trash(resources)` appends resources
scheduled for destruction on the next fence checkpoint, not
immediately. -/
def Context.trash (ctx : Context) (rs : List CleanupAction) : Context :=
  { ctx with dumpster := ctx.dumpster ++ rs }

/-- Modelled from the spec: `trashCommandBuffers` queues an existing
command buffer set for deferred destruction (it may be in flight) and
leaves the caller's handle list empty for reallocation. -/
def Context.trashCommandBuffers (ctx : Context) (bufs : List Nat) : Context :=
  ctx.trash (bufs.map CleanupAction.freeCommandBuffer)

/-- Modelled from the spec: `emptyDumpster(fence)` associates the
currently queued dumpster entries with the fence that will guard the
upcoming submission and moves them into the reclaim queue. -/
def Context.emptyDumpster (ctx : Context) (fence : Nat) : Context :=
  { dumpster := [], recycler := ctx.recycler ++ [(fence, ctx.dumpster)] }

/-- Result of a `recycle()` pass: the cleanup actions that were run, the
fences that were reset for reuse, and the context that remains. -/
structure RecycleResult where
  executed : List CleanupAction
  resetFences : List Nat
  ctx : Context
deriving Repr, DecidableEq

/-- Modelled from the spec: `recycle()` scans the reclaim queue; for
each entry whose guarding fence is signaled, runs its cleanup closure
and removes the fence from further consideration, then resets the fence
for reuse.  The fences currently reading signaled are an input. -/
def Context.recycle (ctx : Context) (signaled : List Nat) : RecycleResult :=
  let ripe := ctx.recycler.filter (fun e => decide (e.1 ∈ signaled))
  { executed := (ripe.map Prod.snd).flatten
    resetFences := ripe.map Prod.fst
    ctx := { ctx with recycler := ctx.recycler.filter (fun e => !decide (e.1 ∈ signaled)) } }

/-- Observable device/queue operations issued by the frame path, in
program order. -/
inductive Event where
  | createSemaphoreEv (h : Nat)
  | createFenceEv (h : Nat)
  | allocateCommandBuffersEv (hs : List Nat)
  | trashCmdBuffersEv (hs : List Nat)
  | emptyDumpsterEv (fence : Nat)
  | resetCmdEv (h : Nat)
  | beginCmdEv (h : Nat)
  | beginOneTimeCmdEv (h : Nat)
  | updateBufferEv (cmd buffer offset size data : Nat)
  | updatePrimaryHookEv (h : Nat)
  | beginRenderPassEv (h fbIdx : Nat)
  | executeCommandsEv (primary secondary : Nat)
  | endRenderPassEv (h : Nat)
  | endCmdEv (h : Nat)
  | recordSecondaryEv (h : Nat)
  | submitEv (cmdBuffers waitSems signalSems : List Nat) (fence : Nat)
  | queueWaitIdleEv
  | recycleEv (executed : List CleanupAction)
  | acquireEv (idx : Nat)
deriving Repr, DecidableEq

/-- The `vulkanApp` state visible to the frame-orchestration code. -/
structure AppState where
  nextHandle : Nat
  acquireComplete : Nat
  renderComplete : Nat
  transferComplete : Option Nat
  pendingUpdates : List PendingUpdate
  primaryCmdBuffers : List Nat
  drawCmdBuffers : List Nat
  textCmdBuffers : List Nat
  currentBuffer : Nat
  imageCount : Nat
  submitFences : List Nat
  signaledFences : List Nat
  primaryCmdBuffersDirty : Bool
  enableTextOverlay : Bool
  textOverlayVisible : Bool
  ctx : Context
deriving Repr, DecidableEq

/-- Model of `vulkanApp::executePendingTransfers` (vulkanApp.cpp:564-612): when
the pending-update queue is non-empty, create a transfer fence and a new
`transferComplete` semaphore, allocate one command buffer, record an
`updateBuffer` command per queued record in order, submit waiting on
`transferPending` and signaling the new `transferComplete`, register the
command buffer and the `transferPending` semaphore on the recycler
guarded by the transfer fence, and clear the queue. -/
def executePendingTransfers (st : AppState) (transferPending : Option Nat) :
    AppState × List Event :=
  if st.pendingUpdates.isEmpty then (st, [])
  else
    let transferFence := st.nextHandle
    let newTransferComplete := st.nextHandle + 1
    let transferCmdBuffer := st.nextHandle + 2
    let tp := transferPending.getD 0
    let recordEvents := st.pendingUpdates.map (fun u =>
      Event.updateBufferEv transferCmdBuffer u.buffer u.offset u.size u.data)
    let events :=
      [Event.createFenceEv transferFence,
       Event.createSemaphoreEv newTransferComplete,
       Event.allocateCommandBuffersEv [transferCmdBuffer],
       Event.beginOneTimeCmdEv transferCmdBuffer]
      ++ recordEvents
      ++ [Event.endCmdEv transferCmdBuffer,
          Event.submitEv [transferCmdBuffer] [tp] [newTransferComplete] transferFence]
    let ctx' := { st.ctx with recycler := st.ctx.recycler ++
      [(transferFence, [CleanupAction.destroySemaphore tp,
                        CleanupAction.freeCommandBuffer transferCmdBuffer])] }
    ({ st with nextHandle := st.nextHandle + 3,
               transferComplete := some newTransferComplete,
               pendingUpdates := [],
               ctx := ctx' },
     events)

/-- The wait-semaphore list built by `drawCurrentCommandBuffer`
(vulkanApp.cpp:521-527): the acquire-complete semaphore (or the caller's
override), plus the previous frame's transfer-complete semaphore when
one is pending. -/
def buildWaitSemaphores (st : AppState) (semArg : Option Nat) : List Nat :=
  match st.transferComplete with
  | some t => [semArg.getD st.acquireComplete, t]
  | none => [semArg.getD st.acquireComplete]

/-- The signal-semaphore list built by `drawCurrentCommandBuffer`
(vulkanApp.cpp:535-540): render-complete, plus a freshly created
transfer-pending semaphore when updates are queued. -/
def buildSignalSemaphores (st : AppState) : List Nat :=
  if st.pendingUpdates.isEmpty then [st.renderComplete]
  else [st.renderComplete, st.nextHandle]

/-- What a call to `drawCurrentCommandBuffer` produced: the state after
the call, the event trace, the semaphore lists it built for the frame
submission, and whether the submission actually happened. -/
structure DrawResult where
  st : AppState
  events : List Event
  waitSemaphores : List Nat
  signalSemaphores : List Nat
  submitted : Bool
deriving Repr, DecidableEq

/-- Model of `vulkanApp::drawCurrentCommandBuffer` (vulkanApp.cpp:510-561): take
the per-image submit fence, defer clearing of the fence slot via the
dumpster, build the wait list (clearing `transferComplete` and deferring
its destruction), empty the dumpster onto the fence, create a
transfer-pending semaphore when updates are queued, build the signal
list, and - unless `primaryCmdBuffers` is empty, in which case it
returns early - submit the current primary buffer, flush pending
transfers, and run one recycle pass. -/
def drawCurrentCommandBuffer (st : AppState) (semArg : Option Nat) : DrawResult :=
  let fence := st.submitFences.getD st.currentBuffer 0
  let ctx1 := { st.ctx with dumpster :=
    st.ctx.dumpster ++ [CleanupAction.clearSubmitFence st.currentBuffer] }
  let waitSemaphores := buildWaitSemaphores st semArg
  let ctx2 :=
    match st.transferComplete with
    | some t => { ctx1 with dumpster := ctx1.dumpster ++ [CleanupAction.destroySemaphore t] }
    | none => ctx1
  let ctx3 := ctx2.emptyDumpster fence
  let transferPending : Option Nat :=
    if st.pendingUpdates.isEmpty then none else some st.nextHandle
  let createEvents : List Event :=
    if st.pendingUpdates.isEmpty then [] else [Event.createSemaphoreEv st.nextHandle]
  let signalSemaphores := buildSignalSemaphores st
  let st1 := { st with transferComplete := none, ctx := ctx3,
                       nextHandle := if st.pendingUpdates.isEmpty then st.nextHandle
                                     else st.nextHandle + 1 }
  if st.primaryCmdBuffers.isEmpty then
    { st := st1
      events := [Event.emptyDumpsterEv fence] ++ createEvents
      waitSemaphores := waitSemaphores
      signalSemaphores := signalSemaphores
      submitted := false }
  else
    let frameSubmit := Event.submitEv [st.primaryCmdBuffers.getD st.currentBuffer 0]
      waitSemaphores signalSemaphores fence
    let stepTransfers := executePendingTransfers st1 transferPending
    let st2 := stepTransfers.1
    let rr := st2.ctx.recycle st.signaledFences
    { st := { st2 with ctx := rr.ctx }
      events := [Event.emptyDumpsterEv fence] ++ createEvents ++ [frameSubmit]
        ++ stepTransfers.2 ++ [Event.recycleEv rr.executed]
      waitSemaphores := waitSemaphores
      signalSemaphores := signalSemaphores
      submitted := true }

/-- The events of one iteration of the per-image recording loop of
`buildCommandBuffers` (vulkanApp.cpp:1080-1098). -/
def recordPrimaryEvents (st : AppState) (primaries : List Nat) (i : Nat) : List Event :=
  let b := primaries.getD i 0
  [Event.resetCmdEv b, Event.beginCmdEv b, Event.updatePrimaryHookEv b,
   Event.beginRenderPassEv b i,
   Event.executeCommandsEv b (st.drawCmdBuffers.getD i 0)]
  ++ (if st.enableTextOverlay && !st.textCmdBuffers.isEmpty && st.textOverlayVisible
      then [Event.executeCommandsEv b (st.textCmdBuffers.getD i 0)] else [])
  ++ [Event.endRenderPassEv b, Event.endCmdEv b]

/-- The success path of `vulkanApp::buildCommandBuffers`
(vulkanApp.cpp:1059-1099): trash the previous primary set; wait for the
queue to go idle; allocate one primary buffer per swapchain image; for
each image reset, begin, run the pre-render hook, begin the render pass,
execute the draw (and optionally text) secondary buffer, end; finally
clear the dirty flag. -/
def buildCommandBuffersCore (st : AppState) : AppState × List Event :=
  let ctx' := st.ctx.trashCommandBuffers st.primaryCmdBuffers
  let primaries := (List.range st.imageCount).map (fun i => st.nextHandle + i)
  let perImage := (List.range st.imageCount).flatMap (recordPrimaryEvents st primaries)
  ({ st with primaryCmdBuffers := primaries,
             nextHandle := st.nextHandle + st.imageCount,
             ctx := ctx',
             primaryCmdBuffersDirty := false },
   [Event.trashCmdBuffersEv st.primaryCmdBuffers, Event.queueWaitIdleEv,
    Event.allocateCommandBuffersEv primaries] ++ perImage)

/-- The guard of `buildCommandBuffers` (vulkanApp.cpp:1056-1058): the
call throws before doing anything when the draw secondary buffers have
not been populated; otherwise it runs `buildCommandBuffersCore`. -/
def buildCommandBuffers (st : AppState) : Except String (AppState × List Event) :=
  if st.drawCmdBuffers.isEmpty then
    Except.error "Draw command buffers have not been populated."
  else
    Except.ok (buildCommandBuffersCore st)

/-- Model of `vulkanApp::updateDrawCommandBuffers` (vulkanApp.cpp:503-508):
repopulate the draw secondary command buffers via
`populateSubCommandBuffers` (trash the old set, allocate a fresh set
sized to the image count, and for each image reset, begin, record, end),
then mark the primaries dirty. -/
def updateDrawCommandBuffers (st : AppState) : AppState × List Event :=
  let ctx' := if st.drawCmdBuffers.isEmpty then st.ctx
              else st.ctx.trashCommandBuffers st.drawCmdBuffers
  let newBufs := (List.range st.imageCount).map (fun i => st.nextHandle + i)
  let perImage := newBufs.flatMap (fun b =>
    [Event.resetCmdEv b, Event.beginCmdEv b, Event.recordSecondaryEv b, Event.endCmdEv b])
  ({ st with drawCmdBuffers := newBufs,
             nextHandle := st.nextHandle + st.imageCount,
             ctx := ctx',
             primaryCmdBuffersDirty := true },
   [Event.allocateCommandBuffersEv newBufs] ++ perImage)

/-- Model of `vulkanApp::prepareFrame` (vulkanApp.cpp:994-1000): rebuild the
primary command buffers when they are dirty, then acquire the next
swapchain image (the acquired index is an input to the model). -/
def prepareFrame (st : AppState) (acquiredIndex : Nat) :
    Except String (AppState × List Event) :=
  if st.primaryCmdBuffersDirty then
    match buildCommandBuffers st with
    | Except.error e => Except.error e
    | Except.ok (st', evs) =>
      Except.ok ({ st' with currentBuffer := acquiredIndex },
                 evs ++ [Event.acquireEv acquiredIndex])
  else
    Except.ok ({ st with currentBuffer := acquiredIndex }, [Event.acquireEv acquiredIndex])

/-- Observable steps of `vulkanApp::run` and `vulkanApp::renderLoop`. -/
inductive LoopEvent where
  | pollInput
  | updateScene
  | updateDrawBufs
  | frameRender
  | queueWaitIdle
  | deviceWaitIdle
  | destroyResources
deriving Repr, DecidableEq

/-- The body of one `renderLoop` iteration (vulkanApp.cpp:801-930):
poll input (which may observe the quit signal), run the scene update,
repopulate the draw secondary buffers, and render. -/
def frameEvents : List LoopEvent :=
  [LoopEvent.pollInput, LoopEvent.updateScene, LoopEvent.updateDrawBufs,
   LoopEvent.frameRender]

/-- Model of `vulkanApp::renderLoop` (vulkanApp.cpp:784-934): `while (!quit)`
run one frame body; the input stream says whether polling this frame
observes a quit signal.  The modelled trace covers the iterations driven
by the given inputs. -/
def renderLoop : Bool → List Bool → List LoopEvent
  | _, [] => []
  | q, inp :: rest =>
    if q then [] else frameEvents ++ renderLoop inp rest

/-- Model of `vulkanApp::run` (vulkanApp.cpp:95-118) followed by the destructor:
run the render loop, then wait for the queue and the device to go idle;
only after that does the destructor release resources. -/
def run (inputs : List Bool) : List LoopEvent :=
  renderLoop false inputs ++
    [LoopEvent.queueWaitIdle, LoopEvent.deviceWaitIdle, LoopEvent.destroyResources]

/-- Recognizes events that reset, begin, record into, or end a command
buffer. -/
def isRecordingEv : Event → Bool
  | Event.resetCmdEv _ => true
  | Event.beginCmdEv _ => true
  | Event.beginOneTimeCmdEv _ => true
  | Event.updateBufferEv _ _ _ _ _ => true
  | Event.updatePrimaryHookEv _ => true
  | Event.beginRenderPassEv _ _ => true
  | Event.executeCommandsEv _ _ => true
  | Event.endRenderPassEv _ => true
  | Event.endCmdEv _ => true
  | Event.recordSecondaryEv _ => true
  | _ => false

/-- Recognizes command-buffer allocation events. -/
def isAllocEv : Event → Bool
  | Event.allocateCommandBuffersEv _ => true
  | _ => false

/-- Recognizes recorded `updateBuffer` commands. -/
def isUpdateBufferEv : Event → Bool
  | Event.updateBufferEv _ _ _ _ _ => true
  | _ => false

/-- The event trace of a `prepareFrame` call, empty when it throws. -/
def prepareFrameEvents (st : AppState) (i : Nat) : List Event :=
  match prepareFrame st i with
  | Except.error _ => []
  | Except.ok (_, evs) => evs

/-- A small concrete app state: two swapchain images, populated draw
and primary buffers, clean dirty flag, nothing pending. -/
def sampleState : AppState :=
  { nextHandle := 100, acquireComplete := 1, renderComplete := 2,
    transferComplete := none, pendingUpdates := [],
    primaryCmdBuffers := [10, 11], drawCmdBuffers := [20, 21],
    textCmdBuffers := [], currentBuffer := 0, imageCount := 2,
    submitFences := [5, 6], signaledFences := [],
    primaryCmdBuffersDirty := false, enableTextOverlay := false,
    textOverlayVisible := false, ctx := { dumpster := [], recycler := [] } }

/-- A concrete state with two queued buffer updates and a pending
transfer-complete semaphore from the previous frame. -/
def flushState : AppState :=
  { sampleState with
    pendingUpdates := [{ buffer := 3, offset := 0, size := 16, data := 7 },
                       { buffer := 4, offset := 8, size := 32, data := 9 }],
    transferComplete := some 50 }

theorem drawCurrentCommandBuffer_waitSemaphores (st : AppState) (semArg : Option Nat) :
    (drawCurrentCommandBuffer st semArg).waitSemaphores = buildWaitSemaphores st semArg := by
  by_cases hp : st.primaryCmdBuffers.isEmpty <;> simp [drawCurrentCommandBuffer, hp]

theorem drawCurrentCommandBuffer_signalSemaphores (st : AppState) (semArg : Option Nat) :
    (drawCurrentCommandBuffer st semArg).signalSemaphores = buildSignalSemaphores st := by
  by_cases hp : st.primaryCmdBuffers.isEmpty <;> simp [drawCurrentCommandBuffer, hp]

/-- C4: the wait-semaphore list of the frame submission built by
`drawCurrentCommandBuffer` has length 2 (acquire-complete plus
transfer-complete) when a transfer-complete semaphore is pending from
the previous frame, and length 1 (acquire-complete only) otherwise; and
when the submission happens it uses exactly that list. -/
theorem wait_semaphore_list_length (st : AppState) (semArg : Option Nat) :
    ((drawCurrentCommandBuffer st semArg).waitSemaphores.length =
      if st.transferComplete.isSome then 2 else 1) ∧
    ((drawCurrentCommandBuffer st semArg).submitted = true →
      Event.submitEv [st.primaryCmdBuffers.getD st.currentBuffer 0]
          ((drawCurrentCommandBuffer st semArg).waitSemaphores)
          ((drawCurrentCommandBuffer st semArg).signalSemaphores)
          (st.submitFences.getD st.currentBuffer 0) ∈
        (drawCurrentCommandBuffer st semArg).events) := by
  constructor
  · rw [drawCurrentCommandBuffer_waitSemaphores]
    unfold buildWaitSemaphores
    cases st.transferComplete <;> simp
  · intro hsub
    rw [drawCurrentCommandBuffer_waitSemaphores, drawCurrentCommandBuffer_signalSemaphores]
    by_cases hp : st.primaryCmdBuffers.isEmpty
    · exfalso
      have hfalse : (drawCurrentCommandBuffer st semArg).submitted = false := by
        simp [drawCurrentCommandBuffer, hp]
      rw [hsub] at hfalse
      exact absurd hfalse (by simp)
    · by_cases hu : st.pendingUpdates.isEmpty <;>
        simp [drawCurrentCommandBuffer, buildWaitSemaphores, buildSignalSemaphores, hp, hu]

/-- Witness for `wait_semaphore_list_length` at a concrete state where
the submission happens. -/
theorem wait_semaphore_list_length_witness :
    Event.submitEv [sampleState.primaryCmdBuffers.getD sampleState.currentBuffer 0]
        ((drawCurrentCommandBuffer sampleState none).waitSemaphores)
        ((drawCurrentCommandBuffer sampleState none).signalSemaphores)
        (sampleState.submitFences.getD sampleState.currentBuffer 0) ∈
      (drawCurrentCommandBuffer sampleState none).events :=
  (wait_semaphore_list_length sampleState none).2 (by decide)

/-- C5: `drawCurrentCommandBuffer` builds a signal-semaphore list of
exactly render-complete, plus one freshly created transfer-pending
semaphore if and only if the pendingUpdates queue is non-empty. -/
theorem signal_semaphore_list (st : AppState) (semArg : Option Nat) :
    ((drawCurrentCommandBuffer st semArg).signalSemaphores =
      st.renderComplete ::
        (if st.pendingUpdates.isEmpty then [] else [st.nextHandle])) ∧
    (st.pendingUpdates ≠ [] →
      Event.createSemaphoreEv st.nextHandle ∈ (drawCurrentCommandBuffer st semArg).events) ∧
    (st.pendingUpdates = [] →
      ∀ h, Event.createSemaphoreEv h ∉ (drawCurrentCommandBuffer st semArg).events) := by
  refine ⟨?_, ?_, ?_⟩
  · rw [drawCurrentCommandBuffer_signalSemaphores]
    unfold buildSignalSemaphores
    by_cases hu : st.pendingUpdates.isEmpty <;> simp [hu]
  · intro hu
    have hu' : st.pendingUpdates.isEmpty = false := by
      cases hd : st.pendingUpdates with
      | nil => exact absurd hd hu
      | cons a l => simp
    unfold drawCurrentCommandBuffer
    by_cases hp : st.primaryCmdBuffers.isEmpty <;> simp [hp, hu']
  · intro hu h
    have hu' : st.pendingUpdates.isEmpty = true := by simp [hu]
    unfold drawCurrentCommandBuffer executePendingTransfers
    by_cases hp : st.primaryCmdBuffers.isEmpty <;> simp [hp, hu']

/-- Witness for `signal_semaphore_list` at concrete states covering
both sides of the iff. -/
theorem signal_semaphore_list_witness :
    (Event.createSemaphoreEv flushState.nextHandle ∈
      (drawCurrentCommandBuffer flushState none).events) ∧
    (∀ h, Event.createSemaphoreEv h ∉ (drawCurrentCommandBuffer sampleState none).events) :=
  ⟨(signal_semaphore_list flushState none).2.1 (by decide),
   (signal_semaphore_list sampleState none).2.2 (by decide)⟩

/-- C6: invoking `buildCommandBuffers` before any draw secondary
command buffers exist fails with the fatal error, and no primary
command buffer is allocated, reset, or recorded (no success payload is
produced at all). -/
theorem buildCommandBuffers_requires_draw_buffers (st : AppState)
    (h : st.drawCmdBuffers = []) :
    buildCommandBuffers st =
      Except.error "Draw command buffers have not been populated." := by
  unfold buildCommandBuffers
  simp [h]

/-- Witness for `buildCommandBuffers_requires_draw_buffers` at a
concrete state with no draw buffers. -/
theorem buildCommandBuffers_requires_draw_buffers_witness :
    buildCommandBuffers { sampleState with drawCmdBuffers := [] } =
      Except.error "Draw command buffers have not been populated." :=
  buildCommandBuffers_requires_draw_buffers { sampleState with drawCmdBuffers := [] } (by decide)

/-- C2: whenever `buildCommandBuffers` proceeds (draw secondary buffers
exist), a queue idle wait occurs in its trace before any event that
resets, begins, or records a primary command buffer. -/
theorem buildCommandBuffers_waits_idle_before_recording (st : AppState)
    (h : st.drawCmdBuffers ≠ []) :
    buildCommandBuffers st = Except.ok (buildCommandBuffersCore st) ∧
    ∃ pre post, (buildCommandBuffersCore st).2 = pre ++ Event.queueWaitIdleEv :: post ∧
      ∀ e ∈ pre, isRecordingEv e = false := by
  have hne : st.drawCmdBuffers.isEmpty = false := by
    cases hd : st.drawCmdBuffers with
    | nil => exact absurd hd h
    | cons a l => simp
  refine ⟨by simp [buildCommandBuffers, hne],
    [Event.trashCmdBuffersEv st.primaryCmdBuffers],
    Event.allocateCommandBuffersEv ((List.range st.imageCount).map (fun i => st.nextHandle + i)) ::
      (List.range st.imageCount).flatMap
        (recordPrimaryEvents st ((List.range st.imageCount).map (fun i => st.nextHandle + i))),
    by simp [buildCommandBuffersCore], ?_⟩
  intro e he
  rw [List.mem_singleton] at he
  subst he
  rfl

/-- Witness for `buildCommandBuffers_waits_idle_before_recording` at a
concrete populated state. -/
theorem buildCommandBuffers_waits_idle_before_recording_witness :
    buildCommandBuffers sampleState = Except.ok (buildCommandBuffersCore sampleState) ∧
    ∃ pre post, (buildCommandBuffersCore sampleState).2 = pre ++ Event.queueWaitIdleEv :: post ∧
      ∀ e ∈ pre, isRecordingEv e = false :=
  buildCommandBuffers_waits_idle_before_recording sampleState (by decide)

theorem filter_isUpdateBufferEv_records (b : Nat) (us : List PendingUpdate) :
    (us.map (fun u => Event.updateBufferEv b u.buffer u.offset u.size u.data)).filter
      isUpdateBufferEv =
    us.map (fun u => Event.updateBufferEv b u.buffer u.offset u.size u.data) := by
  induction us with
  | nil => rfl
  | cons a l ih => simp [isUpdateBufferEv, ih]

theorem filter_isAllocEv_records (b : Nat) (us : List PendingUpdate) :
    (us.map (fun u => Event.updateBufferEv b u.buffer u.offset u.size u.data)).filter
      isAllocEv = [] := by
  induction us with
  | nil => rfl
  | cons a l ih => simp [isAllocEv, ih]

/-- C3: with N ≥ 1 updates queued, `executePendingTransfers` allocates
exactly one command buffer, begins it one-time, records exactly the N
queued `updateBuffer` commands into it in enqueue order, and leaves the
pendingUpdates queue empty. -/
theorem executePendingTransfers_single_batch (st : AppState) (tp : Nat)
    (h : st.pendingUpdates ≠ []) :
    (executePendingTransfers st (some tp)).1.pendingUpdates = [] ∧
    ((executePendingTransfers st (some tp)).2.filter isAllocEv =
      [Event.allocateCommandBuffersEv [st.nextHandle + 2]]) ∧
    ((executePendingTransfers st (some tp)).2.filter isUpdateBufferEv =
      st.pendingUpdates.map (fun u =>
        Event.updateBufferEv (st.nextHandle + 2) u.buffer u.offset u.size u.data)) ∧
    Event.beginOneTimeCmdEv (st.nextHandle + 2) ∈ (executePendingTransfers st (some tp)).2 := by
  have hu : st.pendingUpdates.isEmpty = false := by
    cases hd : st.pendingUpdates with
    | nil => exact absurd hd h
    | cons a l => simp
  refine ⟨by simp [executePendingTransfers, hu], ?_, ?_, ?_⟩
  · simp [executePendingTransfers, hu, List.filter_append, isAllocEv,
      filter_isAllocEv_records]
  · simp [executePendingTransfers, hu, List.filter_append, isUpdateBufferEv,
      filter_isUpdateBufferEv_records]
  · simp [executePendingTransfers, hu]

/-- Witness for `executePendingTransfers_single_batch` at a concrete
state with two queued updates. -/
theorem executePendingTransfers_single_batch_witness :
    (executePendingTransfers flushState (some 42)).1.pendingUpdates = [] ∧
    ((executePendingTransfers flushState (some 42)).2.filter isAllocEv =
      [Event.allocateCommandBuffersEv [flushState.nextHandle + 2]]) ∧
    ((executePendingTransfers flushState (some 42)).2.filter isUpdateBufferEv =
      flushState.pendingUpdates.map (fun u =>
        Event.updateBufferEv (flushState.nextHandle + 2) u.buffer u.offset u.size u.data)) ∧
    Event.beginOneTimeCmdEv (flushState.nextHandle + 2) ∈
      (executePendingTransfers flushState (some 42)).2 :=
  executePendingTransfers_single_batch flushState 42 (by decide)

/-- C7 counterexample: at a concrete state, `updateDrawCommandBuffers`
sets the primaries' dirty flag to true (not false as the claim states),
and the subsequent `prepareFrame` is not a no-op - it performs the
primary rebuild (witnessed by the queue idle wait in its trace). -/
theorem updateDrawCommandBuffers_dirty_cex :
    ¬((updateDrawCommandBuffers sampleState).1.primaryCmdBuffersDirty = false) ∧
    Event.queueWaitIdleEv ∈ prepareFrameEvents (updateDrawCommandBuffers sampleState).1 0 := by
  decide

/-- C7 amended: `updateDrawCommandBuffers` always sets the primaries'
dirty flag to true (even with unchanged content), so the next
`prepareFrame` rebuilds the primaries; the rebuild itself clears the
flag, and a `prepareFrame` on a state whose flag is clear skips the
rebuild and only acquires the next image. -/
theorem dirty_flag_rebuild_protocol (st st2 st3 : AppState) (r : AppState × List Event)
    (hb : buildCommandBuffers st2 = Except.ok r) (i : Nat)
    (h3 : st3.primaryCmdBuffersDirty = false) :
    (updateDrawCommandBuffers st).1.primaryCmdBuffersDirty = true ∧
    r.1.primaryCmdBuffersDirty = false ∧
    prepareFrame st3 i =
      Except.ok ({ st3 with currentBuffer := i }, [Event.acquireEv i]) := by
  refine ⟨by simp [updateDrawCommandBuffers], ?_, by simp [prepareFrame, h3]⟩
  unfold buildCommandBuffers at hb
  by_cases hd : st2.drawCmdBuffers.isEmpty
  · simp [hd] at hb
  · simp only [hd, Bool.false_eq_true, if_false, Except.ok.injEq] at hb
    subst hb
    rfl

/-- Witness for `dirty_flag_rebuild_protocol` at concrete states. -/
theorem dirty_flag_rebuild_protocol_witness :
    ∃ r, buildCommandBuffers sampleState = Except.ok r ∧
      ((updateDrawCommandBuffers sampleState).1.primaryCmdBuffersDirty = true ∧
       r.1.primaryCmdBuffersDirty = false ∧
       prepareFrame sampleState 1 =
         Except.ok ({ sampleState with currentBuffer := 1 }, [Event.acquireEv 1])) :=
  ⟨_, rfl, dirty_flag_rebuild_protocol sampleState sampleState sampleState _ rfl 1 rfl⟩

/-- The reclaim-queue entry that `drawCurrentCommandBuffer` creates by
emptying the dumpster onto the per-image submit fence: the fence-slot
clear, plus the deferred destruction of the previous frame's
transfer-complete semaphore when one was pending. -/
def dumpedEntry (st : AppState) : Nat × List CleanupAction :=
  (st.submitFences.getD st.currentBuffer 0,
   st.ctx.dumpster ++ CleanupAction.clearSubmitFence st.currentBuffer ::
     (match st.transferComplete with
      | some t => [CleanupAction.destroySemaphore t]
      | none => []))

theorem draw_ctx_early (st : AppState) (semArg : Option Nat)
    (hp : st.primaryCmdBuffers.isEmpty = true) :
    (drawCurrentCommandBuffer st semArg).st.ctx =
      { dumpster := [], recycler := st.ctx.recycler ++ [dumpedEntry st] } := by
  cases ht : st.transferComplete <;>
    simp [drawCurrentCommandBuffer, Context.emptyDumpster, dumpedEntry, hp, ht]

/-- C9: when `primaryCmdBuffers` is empty, `drawCurrentCommandBuffer`
returns early: nothing is submitted to the queue, `pendingUpdates` is
left unchanged (no `updateBuffer` command is recorded), no recycle pass
runs - yet the per-image submit fence was already taken and the
dumpster was already emptied onto it. -/
theorem drawCurrentCommandBuffer_early_return (st : AppState) (semArg : Option Nat)
    (h : st.primaryCmdBuffers = []) :
    (drawCurrentCommandBuffer st semArg).submitted = false ∧
    (drawCurrentCommandBuffer st semArg).st.pendingUpdates = st.pendingUpdates ∧
    (∀ cb w sg f, Event.submitEv cb w sg f ∉ (drawCurrentCommandBuffer st semArg).events) ∧
    (∀ ex, Event.recycleEv ex ∉ (drawCurrentCommandBuffer st semArg).events) ∧
    (∀ c b o s d, Event.updateBufferEv c b o s d ∉ (drawCurrentCommandBuffer st semArg).events) ∧
    (drawCurrentCommandBuffer st semArg).st.ctx =
      { dumpster := [], recycler := st.ctx.recycler ++ [dumpedEntry st] } := by
  have hp : st.primaryCmdBuffers.isEmpty = true := by simp [h]
  refine ⟨?_, ?_, ?_, ?_, ?_, draw_ctx_early st semArg hp⟩ <;>
    by_cases hu : st.pendingUpdates.isEmpty <;>
      simp [drawCurrentCommandBuffer, hp, hu]

/-- A concrete state with no primary command buffers but queued updates
and a pending transfer-complete semaphore. -/
def noPrimariesState : AppState :=
  { flushState with primaryCmdBuffers := [] }

/-- Witness for `drawCurrentCommandBuffer_early_return` at a concrete
state. -/
theorem drawCurrentCommandBuffer_early_return_witness :
    (drawCurrentCommandBuffer noPrimariesState none).submitted = false ∧
    (drawCurrentCommandBuffer noPrimariesState none).st.pendingUpdates =
      noPrimariesState.pendingUpdates ∧
    (∀ cb w sg f,
      Event.submitEv cb w sg f ∉ (drawCurrentCommandBuffer noPrimariesState none).events) ∧
    (∀ ex, Event.recycleEv ex ∉ (drawCurrentCommandBuffer noPrimariesState none).events) ∧
    (∀ c b o s d,
      Event.updateBufferEv c b o s d ∉ (drawCurrentCommandBuffer noPrimariesState none).events) ∧
    (drawCurrentCommandBuffer noPrimariesState none).st.ctx =
      { dumpster := [],
        recycler := noPrimariesState.ctx.recycler ++ [dumpedEntry noPrimariesState] } :=
  drawCurrentCommandBuffer_early_return noPrimariesState none (by decide)

/-- C1: resources scheduled for destruction via `trash` and then
associated with a fence by `emptyDumpster(fence)` are not run by
`recycle()` while the fence is unsignaled - they stay in the reclaim
queue and contribute nothing to the executed cleanups; in particular
the transfer command buffer and pending semaphore registered on the
recycler by `executePendingTransfers` survive a recycle pass, and add
nothing to its executed cleanups, while their guarding transfer fence
is unsignaled. -/
theorem deferred_destruction_waits_for_fence :
    (∀ (ctx0 : Context) (rs : List CleanupAction) (f : Nat) (s : List Nat),
      f ∉ s →
      ((f, ctx0.dumpster ++ rs) ∈ (((ctx0.trash rs).emptyDumpster f).recycle s).ctx.recycler ∧
       (((ctx0.trash rs).emptyDumpster f).recycle s).executed =
         (Context.recycle { dumpster := [], recycler := ctx0.recycler } s).executed)) ∧
    (∀ (st : AppState) (tp : Nat) (s : List Nat),
      st.pendingUpdates ≠ [] → st.nextHandle ∉ s →
      ((st.nextHandle,
        [CleanupAction.destroySemaphore tp,
         CleanupAction.freeCommandBuffer (st.nextHandle + 2)]) ∈
          (executePendingTransfers st (some tp)).1.ctx.recycler ∧
       (st.nextHandle,
        [CleanupAction.destroySemaphore tp,
         CleanupAction.freeCommandBuffer (st.nextHandle + 2)]) ∈
          ((executePendingTransfers st (some tp)).1.ctx.recycle s).ctx.recycler ∧
       ((executePendingTransfers st (some tp)).1.ctx.recycle s).executed =
         (st.ctx.recycle s).executed)) := by
  constructor
  · intro ctx0 rs f s hf
    constructor
    · simp [Context.trash, Context.emptyDumpster, Context.recycle, List.mem_filter, hf]
    · simp [Context.trash, Context.emptyDumpster, Context.recycle, List.filter_append, hf]
  · intro st tp s hne hf
    have hu : st.pendingUpdates.isEmpty = false := by
      cases hd : st.pendingUpdates with
      | nil => exact absurd hd hne
      | cons a l => simp
    refine ⟨?_, ?_, ?_⟩
    · simp [executePendingTransfers, hu]
    · simp [executePendingTransfers, hu, Context.recycle, List.mem_filter, List.filter_append, hf]
    · simp [executePendingTransfers, hu, Context.recycle, List.filter_append, hf]

/-- Witness for `deferred_destruction_waits_for_fence` at concrete
inputs with an unsignaled fence. -/
theorem deferred_destruction_waits_for_fence_witness :
    (((5 : Nat), [CleanupAction.destroySemaphore 9]) ∈
        (((Context.trash { dumpster := [], recycler := [] } [CleanupAction.destroySemaphore 9]).emptyDumpster
            5).recycle [7]).ctx.recycler ∧
      ((((Context.trash { dumpster := [], recycler := [] }
            [CleanupAction.destroySemaphore 9]).emptyDumpster 5).recycle [7]).executed =
        (Context.recycle { dumpster := [], recycler := [] } [7]).executed)) ∧
    ((flushState.nextHandle,
      [CleanupAction.destroySemaphore 33,
       CleanupAction.freeCommandBuffer (flushState.nextHandle + 2)]) ∈
        (executePendingTransfers flushState (some 33)).1.ctx.recycler ∧
     (flushState.nextHandle,
      [CleanupAction.destroySemaphore 33,
       CleanupAction.freeCommandBuffer (flushState.nextHandle + 2)]) ∈
        ((executePendingTransfers flushState (some 33)).1.ctx.recycle [7]).ctx.recycler ∧
     ((executePendingTransfers flushState (some 33)).1.ctx.recycle [7]).executed =
       (flushState.ctx.recycle [7]).executed) :=
  ⟨deferred_destruction_waits_for_fence.1 { dumpster := [], recycler := [] }
      [CleanupAction.destroySemaphore 9] 5 [7] (by decide),
   deferred_destruction_waits_for_fence.2 flushState 33 [7] (by decide) (by decide)⟩

theorem recycle_keeps_unsignaled (ctx : Context) (s : List Nat)
    (e : Nat × List CleanupAction) (he : e ∈ ctx.recycler) (hf : e.1 ∉ s) :
    e ∈ (ctx.recycle s).ctx.recycler := by
  simp [Context.recycle, List.mem_filter, he, hf]

theorem mem_recycle_executed (ctx : Context) (s : List Nat) (a : CleanupAction)
    (h : a ∈ (ctx.recycle s).executed) :
    ∃ e, e ∈ ctx.recycler ∧ e.1 ∈ s ∧ a ∈ e.2 := by
  simp only [Context.recycle, List.mem_flatten, List.mem_map, List.mem_filter,
    decide_eq_true_eq] at h
  obtain ⟨l, ⟨e, ⟨he, hs⟩, rfl⟩, ha⟩ := h
  exact ⟨e, he, hs, ha⟩

theorem draw_submitted_noflush (st : AppState) (semArg : Option Nat)
    (hp : st.primaryCmdBuffers.isEmpty = false)
    (hu : st.pendingUpdates.isEmpty = true) :
    (drawCurrentCommandBuffer st semArg).st.ctx =
      (Context.recycle { dumpster := [], recycler := st.ctx.recycler ++ [dumpedEntry st] }
        st.signaledFences).ctx ∧
    (drawCurrentCommandBuffer st semArg).st.transferComplete = none ∧
    (drawCurrentCommandBuffer st semArg).events =
      [Event.emptyDumpsterEv (st.submitFences.getD st.currentBuffer 0),
       Event.submitEv [st.primaryCmdBuffers.getD st.currentBuffer 0]
         (buildWaitSemaphores st semArg) (buildSignalSemaphores st)
         (st.submitFences.getD st.currentBuffer 0),
       Event.recycleEv
         (Context.recycle { dumpster := [], recycler := st.ctx.recycler ++ [dumpedEntry st] }
           st.signaledFences).executed] := by
  cases ht : st.transferComplete <;>
    simp [drawCurrentCommandBuffer, executePendingTransfers, Context.emptyDumpster,
      Context.recycle, dumpedEntry, hp, hu, ht]

theorem draw_submitted_flush (st : AppState) (semArg : Option Nat)
    (hp : st.primaryCmdBuffers.isEmpty = false)
    (hu : st.pendingUpdates.isEmpty = false) :
    (drawCurrentCommandBuffer st semArg).st.ctx =
      (Context.recycle
        { dumpster := [],
          recycler := st.ctx.recycler ++ [dumpedEntry st] ++
            [(st.nextHandle + 1,
              [CleanupAction.destroySemaphore st.nextHandle,
               CleanupAction.freeCommandBuffer (st.nextHandle + 3)])] }
        st.signaledFences).ctx ∧
    (drawCurrentCommandBuffer st semArg).st.transferComplete = some (st.nextHandle + 2) ∧
    (drawCurrentCommandBuffer st semArg).events =
      [Event.emptyDumpsterEv (st.submitFences.getD st.currentBuffer 0),
       Event.createSemaphoreEv st.nextHandle,
       Event.submitEv [st.primaryCmdBuffers.getD st.currentBuffer 0]
         (buildWaitSemaphores st semArg) (buildSignalSemaphores st)
         (st.submitFences.getD st.currentBuffer 0),
       Event.createFenceEv (st.nextHandle + 1),
       Event.createSemaphoreEv (st.nextHandle + 2),
       Event.allocateCommandBuffersEv [st.nextHandle + 3],
       Event.beginOneTimeCmdEv (st.nextHandle + 3)]
      ++ st.pendingUpdates.map (fun u =>
           Event.updateBufferEv (st.nextHandle + 3) u.buffer u.offset u.size u.data)
      ++ [Event.endCmdEv (st.nextHandle + 3),
          Event.submitEv [st.nextHandle + 3] [st.nextHandle] [st.nextHandle + 2]
            (st.nextHandle + 1),
          Event.recycleEv
            (Context.recycle
              { dumpster := [],
                recycler := st.ctx.recycler ++ [dumpedEntry st] ++
                  [(st.nextHandle + 1,
                    [CleanupAction.destroySemaphore st.nextHandle,
                     CleanupAction.freeCommandBuffer (st.nextHandle + 3)])] }
              st.signaledFences).executed] := by
  cases ht : st.transferComplete <;>
    simp [drawCurrentCommandBuffer, executePendingTransfers, Context.emptyDumpster,
      Context.recycle, dumpedEntry, hp, hu, ht]

/-- C10: after `drawCurrentCommandBuffer` returns, the previous frame's
transfer-complete semaphore has been cleared from the semaphore slot
and its destruction deferred onto the frame fence's reclaim entry (it
is not executed by the recycle pass of this call while that fence is
unsignaled), and `transferComplete` holds a freshly created semaphore
if and only if pending updates were flushed during this call. -/
theorem transfer_semaphore_lifecycle (st : AppState) (semArg : Option Nat) (t : Nat)
    (ht : st.transferComplete = some t)
    (hf : st.submitFences.getD st.currentBuffer 0 ∉ st.signaledFences)
    (hclean : ∀ e ∈ st.ctx.recycler, CleanupAction.destroySemaphore t ∉ e.2)
    (hlt : t < st.nextHandle) :
    ((drawCurrentCommandBuffer st semArg).st.transferComplete.isSome =
      (!st.pendingUpdates.isEmpty && !st.primaryCmdBuffers.isEmpty)) ∧
    (∃ acts, (st.submitFences.getD st.currentBuffer 0, acts) ∈
        (drawCurrentCommandBuffer st semArg).st.ctx.recycler ∧
      CleanupAction.destroySemaphore t ∈ acts) ∧
    (∀ ex, Event.recycleEv ex ∈ (drawCurrentCommandBuffer st semArg).events →
      CleanupAction.destroySemaphore t ∉ ex) ∧
    ((!st.pendingUpdates.isEmpty && !st.primaryCmdBuffers.isEmpty) = true →
      (drawCurrentCommandBuffer st semArg).st.transferComplete = some (st.nextHandle + 2) ∧
      Event.createSemaphoreEv (st.nextHandle + 2) ∈
        (drawCurrentCommandBuffer st semArg).events) := by
  have hde : dumpedEntry st =
      (st.submitFences.getD st.currentBuffer 0,
       st.ctx.dumpster ++ CleanupAction.clearSubmitFence st.currentBuffer ::
         [CleanupAction.destroySemaphore t]) := by
    simp [dumpedEntry, ht]
  by_cases hp : st.primaryCmdBuffers.isEmpty
  · have hctx := draw_ctx_early st semArg hp
    refine ⟨?_, ?_, ?_, ?_⟩
    · have htc : (drawCurrentCommandBuffer st semArg).st.transferComplete = none := by
        by_cases hu : st.pendingUpdates.isEmpty <;>
          simp [drawCurrentCommandBuffer, hp, hu]
      rw [htc, hp]
      simp
    · refine ⟨st.ctx.dumpster ++ CleanupAction.clearSubmitFence st.currentBuffer ::
        [CleanupAction.destroySemaphore t], ?_, by simp⟩
      rw [hctx, ← hde]
      simp
    · intro ex hex
      have hnone : ∀ ex2, Event.recycleEv ex2 ∉ (drawCurrentCommandBuffer st semArg).events := by
        intro ex2
        by_cases hu : st.pendingUpdates.isEmpty <;>
          simp [drawCurrentCommandBuffer, hp, hu]
      exact absurd hex (hnone ex)
    · intro hcond
      rw [hp] at hcond
      simp at hcond
  · have hp' : st.primaryCmdBuffers.isEmpty = false := by simpa using hp
    by_cases hu : st.pendingUpdates.isEmpty
    · obtain ⟨hctx, htc, hev⟩ := draw_submitted_noflush st semArg hp' hu
      refine ⟨?_, ?_, ?_, ?_⟩
      · rw [htc, hu]
        simp
      · refine ⟨st.ctx.dumpster ++ CleanupAction.clearSubmitFence st.currentBuffer ::
          [CleanupAction.destroySemaphore t], ?_, by simp⟩
        rw [hctx, ← hde]
        refine recycle_keeps_unsignaled _ _ _ (by simp) ?_
        rw [hde]
        exact hf
      · intro ex hex ha
        rw [hev] at hex
        simp only [List.mem_cons, List.not_mem_nil, or_false, Event.recycleEv.injEq] at hex
        rcases hex with h1 | h1 | h1
        all_goals try exact absurd h1 (by simp)
        subst h1
        obtain ⟨e, he, hs, hae⟩ := mem_recycle_executed _ _ _ ha
        rcases List.mem_append.mp he with he0 | he1
        · exact absurd hae (hclean e he0)
        · rw [List.mem_singleton] at he1
          subst he1
          rw [hde] at hs
          exact absurd hs hf
      · intro hcond
        rw [hu] at hcond
        simp at hcond
    · have hu' : st.pendingUpdates.isEmpty = false := by simpa using hu
      obtain ⟨hctx, htc, hev⟩ := draw_submitted_flush st semArg hp' hu'
      refine ⟨?_, ?_, ?_, ?_⟩
      · rw [htc, hu']
        simp [hp']
      · refine ⟨st.ctx.dumpster ++ CleanupAction.clearSubmitFence st.currentBuffer ::
          [CleanupAction.destroySemaphore t], ?_, by simp⟩
        rw [hctx, ← hde]
        refine recycle_keeps_unsignaled _ _ _ (by simp) ?_
        rw [hde]
        exact hf
      · intro ex hex ha
        rw [hev] at hex
        rcases List.mem_append.mp hex with hex1 | hex2
        · rcases List.mem_append.mp hex1 with hex0 | hexm
          · simp at hex0
          · obtain ⟨u, _, heq⟩ := List.mem_map.mp hexm
            exact absurd heq (by simp)
        · simp only [List.mem_cons, List.not_mem_nil, or_false] at hex2
          rcases hex2 with h1 | h1 | h1
          · exact absurd h1 (by simp)
          · exact absurd h1 (by simp)
          obtain rfl : ex = _ := Event.recycleEv.inj h1
          obtain ⟨e, he, hs, hae⟩ := mem_recycle_executed _ _ _ ha
          rcases List.mem_append.mp he with he01 | he2
          · rcases List.mem_append.mp he01 with he0 | he1
            · exact absurd hae (hclean e he0)
            · rw [List.mem_singleton] at he1
              subst he1
              rw [hde] at hs
              exact absurd hs hf
          · rw [List.mem_singleton] at he2
            subst he2
            simp only [List.mem_cons, List.not_mem_nil, or_false,
              CleanupAction.destroySemaphore.injEq] at hae
            rcases hae with hae | hae
            · omega
            · exact absurd hae (by simp)
      · intro _
        refine ⟨htc, ?_⟩
        rw [hev]
        simp

/-- Witness for `transfer_semaphore_lifecycle` at a concrete state with
a pending transfer-complete semaphore and queued updates. -/
theorem transfer_semaphore_lifecycle_witness :
    ((drawCurrentCommandBuffer flushState none).st.transferComplete.isSome =
      (!flushState.pendingUpdates.isEmpty && !flushState.primaryCmdBuffers.isEmpty)) ∧
    (∃ acts, (flushState.submitFences.getD flushState.currentBuffer 0, acts) ∈
        (drawCurrentCommandBuffer flushState none).st.ctx.recycler ∧
      CleanupAction.destroySemaphore 50 ∈ acts) ∧
    (∀ ex, Event.recycleEv ex ∈ (drawCurrentCommandBuffer flushState none).events →
      CleanupAction.destroySemaphore 50 ∉ ex) ∧
    ((!flushState.pendingUpdates.isEmpty && !flushState.primaryCmdBuffers.isEmpty) = true →
      (drawCurrentCommandBuffer flushState none).st.transferComplete =
        some (flushState.nextHandle + 2) ∧
      Event.createSemaphoreEv (flushState.nextHandle + 2) ∈
        (drawCurrentCommandBuffer flushState none).events) :=
  transfer_semaphore_lifecycle flushState none 50 (by decide) (by decide)
    (by intro e he; simp [flushState, sampleState] at he) (by decide)

theorem renderLoop_quit (l : List Bool) : renderLoop true l = [] := by
  cases l <;> simp [renderLoop]

theorem renderLoop_events_subset (q : Bool) (inputs : List Bool) :
    ∀ e ∈ renderLoop q inputs, e ∈ frameEvents := by
  induction inputs generalizing q with
  | nil => simp [renderLoop]
  | cons i rest ih =>
    intro e he
    unfold renderLoop at he
    by_cases hq : q
    · rw [if_pos hq] at he
      simp at he
    · rw [if_neg hq] at he
      rcases List.mem_append.mp he with h | h
      · exact h
      · exact ih i e h

theorem renderLoop_frame_count (inputs : List Bool) :
    (renderLoop false inputs).count LoopEvent.frameRender =
      min (inputs.findIdx id + 1) inputs.length := by
  induction inputs with
  | nil => simp [renderLoop]
  | cons i rest ih =>
    cases i
    · show (frameEvents ++ renderLoop false rest).count LoopEvent.frameRender = _
      rw [List.count_append, ih]
      have hidx : ((false :: rest).findIdx id) = rest.findIdx id + 1 := by
        simp [List.findIdx_cons]
      rw [hidx]
      have hcf : frameEvents.count LoopEvent.frameRender = 1 := by decide
      rw [hcf]
      simp only [List.length_cons]
      omega
    · show (frameEvents ++ renderLoop true rest).count LoopEvent.frameRender = _
      rw [renderLoop_quit, List.append_nil]
      have hidx : ((true :: rest).findIdx id) = 0 := by simp [List.findIdx_cons]
      rw [hidx]
      have hcf : frameEvents.count LoopEvent.frameRender = 1 := by decide
      rw [hcf]
      simp only [List.length_cons]
      omega

/-- C8: the render loop runs one frame per polled input until the quit
signal is observed (the frame that polls the quit signal still
completes), and `run` then waits for the queue, then the device, to go
idle before the destructor's resource release - neither idle wait nor
the destruction occurs anywhere in the loop's trace. -/
theorem run_waits_idle_before_destruction (inputs : List Bool) :
    ∃ pre, run inputs = pre ++
        [LoopEvent.queueWaitIdle, LoopEvent.deviceWaitIdle, LoopEvent.destroyResources] ∧
      LoopEvent.queueWaitIdle ∉ pre ∧ LoopEvent.deviceWaitIdle ∉ pre ∧
      LoopEvent.destroyResources ∉ pre ∧
      pre.count LoopEvent.frameRender = min (inputs.findIdx id + 1) inputs.length := by
  refine ⟨renderLoop false inputs, rfl, ?_, ?_, ?_, renderLoop_frame_count inputs⟩ <;>
  · intro h
    have hmem := renderLoop_events_subset false inputs _ h
    simp [frameEvents] at hmem

end vkx
